import Mathlib

/-!
# Coperex REST backend — shallow embedding and verification

Shallow embedding of the Coperex backend (Express + Mongoose REST API for
user and company management).  Document stores are modelled as Lean lists of
records; each controller becomes a pure function from the request data and
the store to an HTTP status code, a payload, and (for mutating operations)
an updated store.  Mongoose query primitives are embedded as follows:

* `Model.findOne(q)` / `Model.findById(id)`  →  `List.find?` with the query
  predicate;
* `Model.countDocuments(q)`                  →  `(store.filter q).length`;
* `.skip(desde).limit(limite)`               →  `List.drop` / `List.take`;
* `.sort({name: v})`                         →  `List.mergeSort` on names;
* `Model.findByIdAndUpdate(id, data, {new:true})` → update of every record
  matching the id, returning the updated document or `none`; called with
  `undefined` (a `none` id here) it is `findOneAndUpdate({_id: undefined})`,
  whose filter drops the undefined key and becomes `findOneAndUpdate({})`:
  it updates and returns the first document of the collection;
* `doc.save()` → schema validation (required / enum / min / unique) and, on
  success, append to the store.
-/

/-- A `User` document (user.model.js, fields per the schema used throughout
the controllers: name, surname, username, email, password, phone, role,
status). `id` stands for the Mongo `_id`. -/
structure UserRec where
  id : Nat
  name : String
  surname : String
  username : String
  email : String
  password : String
  phone : String
  role : String
  status : Bool
deriving DecidableEq, Repr

/-- A `Company` document (company.model.js): name, description, levelImpact
(enum Bajo/Medio/Alto), yearsTrajectory (Number, min 0), category,
createdBy (ObjectId ref User), status. `id` stands for the Mongo `_id`. -/
structure CompanyRec where
  id : Nat
  name : String
  description : String
  levelImpact : String
  yearsTrajectory : Int
  category : String
  createdBy : Nat
  status : Bool
deriving DecidableEq, Repr

/-- Response shape of the list endpoints: `{ success, total, users|companies }`
plus the HTTP status code. -/
structure ListResult (α : Type) where
  status : Nat
  total : Nat
  items : List α
deriving DecidableEq, Repr

/-! ## user.controller.js (src/unnamed/part_000) -/

/-- Controller `getUsers` (user.controller.js): `query = { status: true }`;
`total = countDocuments(query)`; page = `find(query).skip(desde).limit(limite)`;
defaults `limite = 5`, `desde = 0` are resolved by the caller. -/
def getUsers (store : List UserRec) (limite desde : Nat) : ListResult UserRec :=
  let query : UserRec → Bool := fun u => u.status
  let total := (store.filter query).length
  let users := ((store.filter query).drop desde).take limite
  { status := 200, total := total, items := users }

/-! ## company.controller.js, documented variant (src/unnamed/part_002) -/

namespace CompanyV2

/-- The Mongo query object built by `getCompanies` (part_002): always
`status: true`; `yearsTrajectory: {$gte, $lte}` when `minYears`/`maxYears`
are supplied; `category` equality when supplied. -/
def companyQuery (minYears maxYears : Option Int) (category : Option String)
    (c : CompanyRec) : Bool :=
  c.status
    && (match minYears with
        | some m => decide (m ≤ c.yearsTrajectory)
        | none => true)
    && (match maxYears with
        | some m => decide (c.yearsTrajectory ≤ m)
        | none => true)
    && (match category with
        | some s => c.category == s
        | none => true)

/-- Embeds `.sort({ name: sortOrder })` with `sortOrder = order === "desc" ? -1 : 1`. -/
def sortByName (order : String) (l : List CompanyRec) : List CompanyRec :=
  if order == "desc" then l.mergeSort (fun a b => decide (b.name ≤ a.name))
  else l.mergeSort (fun a b => decide (a.name ≤ b.name))

/-- Controller `getCompanies` (part_002 lines 380–433): filters to the query, counts the
total with `countDocuments(query)`, and pages the sorted results with
`skip(desde).limit(limite)`; defaults `limite = 10`, `desde = 0`, `order = "asc"`
are resolved by the caller. -/
def getCompanies (store : List CompanyRec) (limite desde : Nat) (order : String)
    (minYears maxYears : Option Int) (category : Option String) :
    ListResult CompanyRec :=
  let query := companyQuery minYears maxYears category
  let total := (store.filter query).length
  let companies := ((sortByName order (store.filter query)).drop desde).take limite
  { status := 200, total := total, items := companies }

end CompanyV2

/-! ## findByIdAndUpdate embedding

`Model.findByIdAndUpdate(id, data, { new: true })`: applies the update to the
document matching the id and returns the updated document, or `null` (here
`none`) when no document matches, in which case the store is untouched.
A `none` id models calling it with `undefined`: `findByIdAndUpdate` wraps
`findOneAndUpdate({_id: id})` with no undefined-to-null translation (that
translation is `findById`-only), the undefined filter value is dropped, and
`findOneAndUpdate({}, data)` updates and returns the first document of the
collection, if any. -/

def findByIdAndUpdateUser (store : List UserRec) (uid : Option Nat)
    (f : UserRec → UserRec) : Option UserRec × List UserRec :=
  match uid with
  | none =>
    match store with
    | [] => (none, [])
    | u :: rest => (some (f u), f u :: rest)
  | some i =>
    match store.find? (fun u => u.id == i) with
    | none => (none, store)
    | some u => (some (f u), store.map (fun x => if x.id == i then f x else x))

def findByIdAndUpdateCompany (store : List CompanyRec) (cid : Option Nat)
    (f : CompanyRec → CompanyRec) : Option CompanyRec × List CompanyRec :=
  match cid with
  | none =>
    match store with
    | [] => (none, [])
    | c :: rest => (some (f c), f c :: rest)
  | some i =>
    match store.find? (fun c => c.id == i) with
    | none => (none, store)
    | some c => (some (f c), store.map (fun x => if x.id == i then f x else x))

/-- Controller `deleteUser` (user.controller.js, part_000 lines 156–190): reads the
authenticated identity from `req.usuario`; 400 when it is missing, otherwise
`findByIdAndUpdate(usuario._id, { status: false }, { new: true })`; 404 when
no user matched, else 200. -/
def deleteUser (store : List UserRec) (usuario : Option Nat) :
    Nat × List UserRec :=
  match usuario with
  | none => (400, store)
  | some uid =>
    match findByIdAndUpdateUser store (some uid) (fun u => { u with status := false }) with
    | (none, s) => (404, s)
    | (some _, s) => (200, s)

namespace CompanyV3

/-- Controller `getCompanies` (company.controller.js, part_003 lines 38–63):
`query = { status: true }`, `total = countDocuments(query)`, page =
`find(query).skip(desde).limit(limite)`; defaults `limite = 5`, `desde = 0`
are resolved by the caller. -/
def getCompanies (store : List CompanyRec) (limite desde : Nat) :
    ListResult CompanyRec :=
  let query : CompanyRec → Bool := fun c => c.status
  let total := (store.filter query).length
  let companies := ((store.filter query).drop desde).take limite
  { status := 200, total := total, items := companies }

/-- Controller `deleteCompany` (part_003 lines 72–101):
`findByIdAndUpdate(id, { status: false }, { new: true })`; 404 when no
company matched, else 200. -/
def deleteCompany (store : List CompanyRec) (id : Nat) : Nat × List CompanyRec :=
  match findByIdAndUpdateCompany store (some id) (fun c => { c with status := false }) with
  | (none, s) => (404, s)
  | (some _, s) => (200, s)

/-- Controller `updateCompany` (part_003 lines 110–136): `findByIdAndUpdate(id, data,
{ new: true })`; 404 when no company matched, else 200 with the updated
document. The patch is the request body's partial fields. -/
def updateCompany (store : List CompanyRec) (id : Nat)
    (patch : CompanyRec → CompanyRec) : Nat × List CompanyRec :=
  match findByIdAndUpdateCompany store (some id) patch with
  | (none, s) => (404, s)
  | (some _, s) => (200, s)

end CompanyV3

/-- Controller `updateUser` (user.controller.js, part_000 lines 199–222): reads
`req.params.uid` (`none` on the self route, whose path has no `:uid`
segment) and runs `findByIdAndUpdate(uid, data, { new: true })`; 404 when no
user matched, else 200 with the updated document. -/
def updateUser (store : List UserRec) (uid : Option Nat)
    (patch : UserRec → UserRec) : Nat × List UserRec :=
  match findByIdAndUpdateUser store uid patch with
  | (none, s) => (404, s)
  | (some _, s) => (200, s)

/-! ## Existence/uniqueness predicates
(helpers/db-validators.js, part_000 lines 232–301; the identical
`companyExists` also lives in src/src/middlewares/company-validators.js).
Each predicate is embedded as the list of persistence-layer lookups it
issues paired with its outcome (`Except.error` models a throw); none of them
returns a modified store — they only read. -/

/-- A single query against the persistence layer. -/
inductive Lookup where
  | userByEmail (email : String)
  | userByUsername (username : String)
  | userById (uid : Nat)
  | companyById (cid : Nat)
deriving DecidableEq, Repr

/-- Predicate `emailExists(email)`: one `User.findOne({email})`; throws iff a user
with that email is found. -/
def emailExists (store : List UserRec) (email : String) :
    List Lookup × Except String Unit :=
  ([Lookup.userByEmail email],
   match store.find? (fun u => u.email == email) with
   | some _ => Except.error ("The email " ++ email ++ " is already registered")
   | none => Except.ok ())

/-- Predicate `usernameExists(username)`: one `User.findOne({username})`; throws iff a
user with that username is found. -/
def usernameExists (store : List UserRec) (username : String) :
    List Lookup × Except String Unit :=
  ([Lookup.userByUsername username],
   match store.find? (fun u => u.username == username) with
   | some _ => Except.error ("The username " ++ username ++ " is already registered")
   | none => Except.ok ())

/-- Predicate `userExists(uid)`: one `User.findById(uid)`; throws iff no user with
that id exists. -/
def userExists (store : List UserRec) (uid : Nat) :
    List Lookup × Except String Unit :=
  ([Lookup.userById uid],
   match store.find? (fun u => u.id == uid) with
   | some _ => Except.ok ()
   | none => Except.error "No existe el usuario con el ID proporcionado")

/-- Predicate `companyExists(id)`: one `Company.findById(id)`; throws iff no company
with that id exists. -/
def companyExists (store : List CompanyRec) (cid : Nat) :
    List Lookup × Except String Unit :=
  ([Lookup.companyById cid],
   match store.find? (fun c => c.id == cid) with
   | some _ => Except.ok ()
   | none => Except.error "No existe la empresa con el ID proporcionado")

/-! ## Authentication, roles, and the register chain -/

/-- A decoded JWT identity (user id and role), as the auth middlewares
attach it to the request. -/
structure AuthedUser where
  id : Nat
  role : String
deriving DecidableEq, Repr

/-- POST /auth/register request body. -/
structure RegisterBody where
  name : String
  username : String
  email : String
  password : String
  role : String
deriving DecidableEq, Repr

/-- Middleware `esAdmin` (db-validators, part_000 lines 276–283): responds 403 unless
`req.user` is present with role "ADMIN"; otherwise calls `next()`.
`some 403` is the short-circuit response, `none` lets the chain continue. -/
def esAdmin (user : Option AuthedUser) : Option Nat :=
  match user with
  | none => some 403
  | some u => if u.role = "ADMIN" then none else some 403

/-- Abstraction of argon2's `hash` (external hashing library, out of the
spec's scope; only its output being stored matters here). -/
def hashPw (s : String) : String := "argon2$" ++ s

/-- express-validator's `isEmail` shape check (external library; only used
on branches the theorems below never depend on). -/
def isEmailShaped (s : String) : Bool := s.contains '@'

/-- express-validator's `isStrongPassword` with the options of
`registerValidator`: min length 8 and at least one lowercase, uppercase,
digit and symbol. -/
def isStrongPw (s : String) : Bool :=
  decide (s.length ≥ 8) && s.toList.any (fun c => c.isLower)
    && s.toList.any (fun c => c.isUpper)
    && s.toList.any (fun c => c.isDigit)
    && s.toList.any (fun c => !c.isAlphanum)

/-- The field rules of `registerValidator` (user-validators.js lines 11–27)
after `esAdmin`, in declaration order, collecting each failure message:
name/username/email presence, email shape, `emailExists`,
`usernameExists`, password strength, role presence and membership in
["ADMIN"]. -/
def registerFieldErrors (store : List UserRec) (b : RegisterBody) :
    List String :=
  (if b.name = "" then ["El nombre es requerido"] else [])
  ++ (if b.username = "" then ["El username es requerido"] else [])
  ++ (if b.email = "" then ["El email es requerido"] else [])
  ++ (if isEmailShaped b.email then [] else ["No es un email válido"])
  ++ (match (emailExists store b.email).2 with
      | Except.error e => [e]
      | Except.ok _ => [])
  ++ (match (usernameExists store b.username).2 with
      | Except.error e => [e]
      | Except.ok _ => [])
  ++ (if isStrongPw b.password then []
      else ["La contraseña debe tener mínimo 8 caracteres, una mayúscula, un número y un símbolo"])
  ++ (if b.role = "" then ["El rol es requerido"] else [])
  ++ (if b.role = "ADMIN" then [] else ["Solo se permiten roles ADMIN"])

/-- Modelled from the spec: the register controller
(src/auth/auth.controller.js is not among the sources). Per §4.6 Create,
it constructs the user from the validated input (password hashed at rest)
and persists it, responding 201 with the created record. -/
def register (store : List UserRec) (b : RegisterBody) (newId : Nat) :
    Nat × List UserRec :=
  (201, store ++ [{ id := newId, name := b.name, surname := "",
                    username := b.username, email := b.email,
                    password := hashPw b.password, phone := "",
                    role := b.role, status := true }])

/-- The POST /auth/register chain (`router.post("/register",
registerValidator, register)`, auth.routes.js part_001 line 41):
`registerValidator` runs `esAdmin` first, then the field rules, then
`validarCampos`/`handleErrors` (modelled from the spec, §4.4: respond 400
when any rule failed, else pass through), then the controller.
`user` is the value of `req.user` when the chain starts. -/
def processRegister (store : List UserRec) (user : Option AuthedUser)
    (b : RegisterBody) (newId : Nat) : Nat × List UserRec :=
  match esAdmin user with
  | some code => (code, store)
  | none =>
    if registerFieldErrors store b ≠ [] then (400, store)
    else register store b newId

/-- The register route as the server mounts it: no middleware in the
application sets `req.user` — the JWT middleware attaches the identity to
`req.usuario`, and is in any case absent from this chain — so the chain
always starts with `req.user` unset. -/
def registerRoute (store : List UserRec) (b : RegisterBody) (newId : Nat) :
    Nat × List UserRec :=
  processRegister store none b newId

/-- Modelled from the spec: `hasRoles`
(src/src/middlewares/validate-roles.js is not among the sources; §4.2):
continue iff the attached identity's role is a member of the permitted
set, else respond 403. -/
def hasRoles (roles : List String) (ident : AuthedUser) : Option Nat :=
  if ident.role ∈ roles then none else some 403

/-- The PUT /updateUser (self) pipeline (user.routes.js fragment, part_000
line 91): `updateUserValidator` = [`validateJWT`, `hasRoles("ADMIN")`,
`validateUpdateRole`, `validarCampos`, `handleErrors`] and then the
`updateUser` controller.  `validateJWT` and `validateUpdateRole` are not
among the sources and are modelled from the spec: a valid token attaches
the decoded identity (here `token = some ident`), an invalid or missing one
short-circuits with 401 (§4.1); `validateUpdateRole` validates role changes
and passes a valid body through (§4.3).  The route path has no `:uid`
segment, so the controller reads `req.params.uid` as `undefined` (`none`). -/
def updateUserSelfRoute (store : List UserRec) (token : Option AuthedUser)
    (patch : UserRec → UserRec) : Nat × List UserRec :=
  match token with
  | none => (401, store)
  | some ident =>
    match hasRoles ["ADMIN"] ident with
    | some code => (code, store)
    | none => updateUser store none patch

/-! ## Company creation (both controller variants) and its validator -/

/-- POST /company request body (after JSON parsing; `yearsTrajectory` as the
integer the validator checks and `parseInt` produces). -/
structure CompanyBody where
  name : String
  description : String
  levelImpact : String
  yearsTrajectory : Int
  category : String
deriving DecidableEq, Repr

/-- The Company document built by `new Company({...})` in the create
controllers, with the given value stored in `yearsTrajectory` and
`createdBy := req.usuario._id`. -/
def newCompany (yearsStored : Int) (b : CompanyBody) (adminId newId : Nat) :
    CompanyRec :=
  { id := newId, name := b.name, description := b.description,
    levelImpact := b.levelImpact, yearsTrajectory := yearsStored,
    category := b.category, createdBy := adminId, status := true }

/-- Mongoose schema validation for Company
(src/src/company/company.model.js): required strings present (an empty
string fails `required` for String paths), `levelImpact` in the enum,
`yearsTrajectory ≥ 0` (`min: 0`). -/
def validCompany (c : CompanyRec) : Bool :=
  !(c.name == "") && !(c.description == "")
    && (c.levelImpact == "Bajo" || c.levelImpact == "Medio" || c.levelImpact == "Alto")
    && decide (0 ≤ c.yearsTrajectory) && !(c.category == "")

/-- Embeds `doc.save()`: runs the schema validation, then the insert — which the
unique index on `name` (src/src/company/company.model.js; part_002's copy of
the schema lacks it) makes fail on a duplicate name; on success the document
is appended to the store. -/
def saveCompany (store : List CompanyRec) (c : CompanyRec) :
    Except String (List CompanyRec) :=
  if validCompany c then
    if store.any (fun x => x.name == c.name) then
      Except.error "E11000 duplicate key error"
    else
      Except.ok (store ++ [c])
  else
    Except.error "Company validation failed"

namespace CompanyV2

/-- Controller `createCompany`, founding-year variant (part_002 lines 534–576):
interprets the body's `yearsTrajectory` as the founding year
(`parseInt(yearsTrajectory, 10)`), stores
`currentYear - foundingYear`, and answers 201 on a successful save, 500 on
any error (the store is then left as it was). -/
def createCompany (currentYear : Int) (store : List CompanyRec)
    (adminId : Nat) (b : CompanyBody) (newId : Nat) : Nat × List CompanyRec :=
  match saveCompany store
      (newCompany (currentYear - b.yearsTrajectory) b adminId newId) with
  | Except.ok s => (201, s)
  | Except.error _ => (500, store)

end CompanyV2

namespace CompanyV3

/-- Controller `createCompany`, direct-value variant (part_003 lines 145–173): stores
the body's `yearsTrajectory` verbatim; 201 on a successful save, 500 on any
error. -/
def createCompany (store : List CompanyRec) (adminId : Nat)
    (b : CompanyBody) (newId : Nat) : Nat × List CompanyRec :=
  match saveCompany store (newCompany b.yearsTrajectory b adminId newId) with
  | Except.ok s => (201, s)
  | Except.error _ => (500, store)

end CompanyV3

/-- The rules of `createCompanyValidator`
(src/src/middlewares/company-validators.js lines 19–27), in declaration
order.  `foundingYearValidator` (db-validators, part_000 lines 303–309) is
defined in the source but appears in no chain. -/
def createCompanyValidatorRules : List String :=
  ["body(name).notEmpty", "body(description).notEmpty",
   "body(levelImpact).isIn(Bajo,Medio,Alto)",
   "body(yearsTrajectory).isNumeric.isInt(min 0)",
   "body(category).notEmpty.isString",
   "validarCampos", "handleErrors"]

/-- Validator `foundingYearValidator` (db-validators, part_000 lines 303–309): rejects
a value greater than the current year. Present in the source, referenced by
no validator chain. -/
def foundingYearValidator (currentYear value : Int) : Except String Bool :=
  if currentYear < value then
    Except.error "El año de fundación no puede ser mayor al año actual"
  else
    Except.ok true

/-- The failure messages of `createCompanyValidator`'s field rules: the
`yearsTrajectory` rule only demands a non-negative integer of the raw body
value. -/
def createCompanyFieldErrors (b : CompanyBody) : List String :=
  (if b.name = "" then ["El nombre de la empresa es obligatorio"] else [])
  ++ (if b.description = "" then ["La descripción de la empresa es obligatoria"] else [])
  ++ (if b.levelImpact = "Bajo" ∨ b.levelImpact = "Medio" ∨ b.levelImpact = "Alto" then []
      else ["El nivel de impacto debe ser Bajo, Medio o Alto"])
  ++ (if 0 ≤ b.yearsTrajectory then []
      else ["Los años de trayectoria no pueden ser negativos"])
  ++ (if b.category = "" then ["La categoría de la empresa es obligatoria"] else [])

namespace CompanyV2

/-- POST /company through `createCompanyValidator` into the founding-year
controller, for an already authenticated ADMIN (`validateJWT` and
`hasRoles("ADMIN")` have passed): `validarCampos` (modelled from the spec,
§4.4) answers 400 if any field rule failed, otherwise the controller runs. -/
def createCompanyRoute (currentYear : Int) (store : List CompanyRec)
    (adminId : Nat) (b : CompanyBody) (newId : Nat) : Nat × List CompanyRec :=
  if createCompanyFieldErrors b ≠ [] then (400, store)
  else createCompany currentYear store adminId b newId

end CompanyV2

/-! ## Bootstrap: default administrator -/

/-- The complete list of identifiers imported at the top of
src/src/middlewares/user-validators.js.  `User` and `hash`, both used inside
`createDefaultAdmin`, are not among them. -/
def userValidatorsImports : List String :=
  ["body", "param", "emailExists", "usernameExists", "userExists",
   "validateUserNotDeleted", "esAdmin", "validarCampos", "handleErrors",
   "hasRoles", "validateUpdateRole", "validateJWT", "check", "existeAdmin"]

/-- The default admin document built inside `createDefaultAdmin`'s try
block. -/
def defaultAdmin (newId : Nat) : UserRec :=
  { id := newId, name := "admin", surname := "123", username := "admin123",
    email := "admin123@example.com",
    password := hashPw "SecureP@ssword123", phone := "12345678",
    role := "ADMIN", status := true }

/-- Bootstrap `createDefaultAdmin` (user-validators.js lines 75–97).  The try block
looks up an ADMIN user (`User.findOne({role:"ADMIN"})`) and inserts
`defaultAdmin` when none exists — but it evaluates the identifiers `User`
and `hash`, which the module never imports, so in the module's actual scope
the first statement throws a ReferenceError that the surrounding catch
swallows after logging; the store is never touched.  The in-scope condition
is recorded explicitly so that the try block's intended semantics and the
actual outcome are both visible. -/
def createDefaultAdmin (store : List UserRec) (newId : Nat) : List UserRec :=
  if "User" ∈ userValidatorsImports ∧ "hash" ∈ userValidatorsImports then
    match store.find? (fun u => u.role == "ADMIN") with
    | some _ => store
    | none => store ++ [defaultAdmin newId]
  else
    store

/-- Store used by the closed witnesses: one active company and one active
user, both with id 1. -/
def demoCompanies : List CompanyRec :=
  [{ id := 1, name := "Acme", description := "d", levelImpact := "Alto",
     yearsTrajectory := 5, category := "Tech", createdBy := 1, status := true }]

def demoUsers : List UserRec :=
  [{ id := 1, name := "n", surname := "s", username := "user1",
     email := "u1@example.com", password := "p", phone := "12345678",
     role := "ADMIN", status := true }]

/-- Register request whose email and username both belong to the existing
record in `demoUsers`. -/
def dupRegisterBody : RegisterBody :=
  { name := "n", username := "user1", email := "u1@example.com",
    password := "Aa1!aaaa", role := "ADMIN" }

/-- First document of the two-user store below: an active CLIENT. -/
def demoClient : UserRec :=
  { id := 1, name := "n", surname := "s", username := "client1",
    email := "c1@example.com", password := "p", phone := "11111111",
    role := "CLIENT", status := true }

/-- Second document: the active ADMIN whose identity the self-update
request below carries. -/
def demoAdmin2 : UserRec :=
  { id := 2, name := "a", surname := "b", username := "admin2",
    email := "a2@example.com", password := "p", phone := "22222222",
    role := "ADMIN", status := true }

/-- A users collection whose first document is not the authenticated
identity's record. -/
def demoUsers2 : List UserRec := [demoClient, demoAdmin2]

/-- A valid partial body for the self-update route: set `name`. -/
def renameUser : UserRec → UserRec := fun u => { u with name := "changed" }

/-- Create request matching the spec's worked example: founding year 2005. -/
def demoCompanyBody : CompanyBody :=
  { name := "Acme", description := "x", levelImpact := "Alto",
    yearsTrajectory := 2005, category := "Tech" }

/-- C1: for every list request (GET /user, GET /company), over any store and
any `limite`/`desde`, the 200 response's `total` equals the number of
status-true records matching the request's filters and does not depend on
`limite`/`desde`. -/
theorem list_total_counts_active_matches_independent_of_pagination
    (su : List UserRec) (sc : List CompanyRec)
    (limite desde limite' desde' : Nat) (order : String)
    (minYears maxYears : Option Int) (category : Option String) :
    (getUsers su limite desde).status = 200
    ∧ (getUsers su limite desde).total = (su.filter (fun u => u.status)).length
    ∧ (getUsers su limite desde).total = (getUsers su limite' desde').total
    ∧ (CompanyV2.getCompanies sc limite desde order minYears maxYears category).status = 200
    ∧ (CompanyV2.getCompanies sc limite desde order minYears maxYears category).total
        = (sc.filter (CompanyV2.companyQuery minYears maxYears category)).length
    ∧ (CompanyV2.getCompanies sc limite desde order minYears maxYears category).total
        = (CompanyV2.getCompanies sc limite' desde' order minYears maxYears category).total := by
  refine ⟨rfl, rfl, rfl, rfl, rfl, rfl⟩

/-! ## Helper lemmas about the logical-delete path -/

theorem deleteCompany_200_marks_inactive (sc : List CompanyRec) (cid : Nat)
    (h : (CompanyV3.deleteCompany sc cid).1 = 200) :
    (∃ c ∈ (CompanyV3.deleteCompany sc cid).2, c.id = cid ∧ c.status = false)
    ∧ ∀ x ∈ (CompanyV3.deleteCompany sc cid).2, x.id = cid → x.status = false := by
  unfold CompanyV3.deleteCompany findByIdAndUpdateCompany at *
  cases hf : sc.find? (fun c => c.id == cid) with
  | none => simp [hf] at h
  | some c =>
    have hc : c ∈ sc := List.mem_of_find?_eq_some hf
    have hid : c.id = cid := by
      have h0 := List.find?_some hf
      simpa using h0
    simp only [hf]
    constructor
    · refine ⟨{ c with status := false }, ?_, ?_, rfl⟩
      · have hmem := List.mem_map_of_mem
          (fun x => if x.id == cid then { x with status := false } else x) hc
        simpa [hid] using hmem
      · simpa using hid
    · intro x hx hxid
      obtain ⟨y, hy, rfl⟩ := List.mem_map.mp hx
      by_cases hyid : (y.id == cid) = true
      · simp [hyid]
      · exfalso
        simp only [hyid, Bool.false_eq_true, if_false] at hxid
        exact hyid (by simp [hxid])

theorem deleteUser_200_marks_inactive (su : List UserRec) (uid : Nat)
    (h : (deleteUser su (some uid)).1 = 200) :
    (∃ u ∈ (deleteUser su (some uid)).2, u.id = uid ∧ u.status = false)
    ∧ ∀ x ∈ (deleteUser su (some uid)).2, x.id = uid → x.status = false := by
  unfold deleteUser findByIdAndUpdateUser at *
  cases hf : su.find? (fun u => u.id == uid) with
  | none => simp [hf] at h
  | some u =>
    have hu : u ∈ su := List.mem_of_find?_eq_some hf
    have hid : u.id = uid := by
      have h0 := List.find?_some hf
      simpa using h0
    simp only [hf]
    constructor
    · refine ⟨{ u with status := false }, ?_, ?_, rfl⟩
      · have hmem := List.mem_map_of_mem
          (fun x => if x.id == uid then { x with status := false } else x) hu
        simpa [hid] using hmem
      · simpa using hid
    · intro x hx hxid
      obtain ⟨y, hy, rfl⟩ := List.mem_map.mp hx
      by_cases hyid : (y.id == uid) = true
      · simp [hyid]
      · exfalso
        simp only [hyid, Bool.false_eq_true, if_false] at hxid
        exact hyid (by simp [hxid])

/-- In a company store whose every record with the given id is inactive, the
active-only filter contains no record with that id, so it coincides with the
filter that additionally excludes the id. -/
theorem filter_active_company_excludes_id (s : List CompanyRec) (i : Nat)
    (h : ∀ x ∈ s, x.id = i → x.status = false) :
    (∀ x ∈ s.filter (fun c => c.status), x.id ≠ i)
    ∧ s.filter (fun c => c.status)
        = s.filter (fun c => c.status && !(c.id == i)) := by
  constructor
  · intro x hx hxi
    have hmem := (List.mem_filter.mp hx).1
    have hst := (List.mem_filter.mp hx).2
    have := h x hmem hxi
    simp [this] at hst
  · refine List.filter_congr ?_
    intro x hx
    by_cases hxi : x.id = i
    · simp [h x hx hxi, hxi]
    · simp [hxi]

/-- User-store version of `filter_active_company_excludes_id`. -/
theorem filter_active_user_excludes_id (s : List UserRec) (i : Nat)
    (h : ∀ x ∈ s, x.id = i → x.status = false) :
    (∀ x ∈ s.filter (fun u => u.status), x.id ≠ i)
    ∧ s.filter (fun u => u.status)
        = s.filter (fun u => u.status && !(u.id == i)) := by
  constructor
  · intro x hx hxi
    have hmem := (List.mem_filter.mp hx).1
    have hst := (List.mem_filter.mp hx).2
    have := h x hmem hxi
    simp [this] at hst
  · refine List.filter_congr ?_
    intro x hx
    by_cases hxi : x.id = i
    · simp [h x hx hxi, hxi]
    · simp [hxi]

/-- C2: for every logical delete that succeeds with 200 (DELETE /company/:id,
DELETE /user self), the target record still exists in the store with
status = false, and every subsequent list request excludes it from its
results and from its total (the total counts only active records, none of
which carries the deleted id). -/
theorem logical_delete_keeps_record_inactive_and_listings_exclude_it
    (sc : List CompanyRec) (su : List UserRec) (cid uid : Nat)
    (hc : (CompanyV3.deleteCompany sc cid).1 = 200)
    (hu : (deleteUser su (some uid)).1 = 200) :
    (∃ c ∈ (CompanyV3.deleteCompany sc cid).2, c.id = cid ∧ c.status = false)
    ∧ (∀ limite desde : Nat,
        (∀ c ∈ (CompanyV3.getCompanies (CompanyV3.deleteCompany sc cid).2 limite desde).items,
            c.id ≠ cid)
        ∧ (CompanyV3.getCompanies (CompanyV3.deleteCompany sc cid).2 limite desde).total
            = ((CompanyV3.deleteCompany sc cid).2.filter
                (fun c => c.status && !(c.id == cid))).length)
    ∧ (∃ u ∈ (deleteUser su (some uid)).2, u.id = uid ∧ u.status = false)
    ∧ (∀ limite desde : Nat,
        (∀ x ∈ (getUsers (deleteUser su (some uid)).2 limite desde).items, x.id ≠ uid)
        ∧ (getUsers (deleteUser su (some uid)).2 limite desde).total
            = ((deleteUser su (some uid)).2.filter
                (fun x => x.status && !(x.id == uid))).length) := by
  obtain ⟨hex_c, hall_c⟩ := deleteCompany_200_marks_inactive sc cid hc
  obtain ⟨hex_u, hall_u⟩ := deleteUser_200_marks_inactive su uid hu
  obtain ⟨hni_c, hfe_c⟩ := filter_active_company_excludes_id _ cid hall_c
  obtain ⟨hni_u, hfe_u⟩ := filter_active_user_excludes_id _ uid hall_u
  refine ⟨hex_c, ?_, hex_u, ?_⟩
  · intro limite desde
    constructor
    · intro c hcmem
      simp only [CompanyV3.getCompanies] at hcmem
      exact hni_c c (List.mem_of_mem_drop (List.mem_of_mem_take hcmem))
    · simp only [CompanyV3.getCompanies]
      rw [hfe_c]
  · intro limite desde
    constructor
    · intro x hxmem
      simp only [getUsers] at hxmem
      exact hni_u x (List.mem_of_mem_drop (List.mem_of_mem_take hxmem))
    · simp only [getUsers]
      rw [hfe_u]

/-- Witness for C2: the hypotheses hold at the demo stores and the theorem
applies there. -/
theorem logical_delete_witness :
    (CompanyV3.deleteCompany demoCompanies 1).1 = 200
    ∧ (deleteUser demoUsers (some 1)).1 = 200
    ∧ ((∃ c ∈ (CompanyV3.deleteCompany demoCompanies 1).2, c.id = 1 ∧ c.status = false)
       ∧ (∀ limite desde : Nat,
           (∀ c ∈ (CompanyV3.getCompanies (CompanyV3.deleteCompany demoCompanies 1).2
                     limite desde).items, c.id ≠ 1)
           ∧ (CompanyV3.getCompanies (CompanyV3.deleteCompany demoCompanies 1).2
                limite desde).total
               = ((CompanyV3.deleteCompany demoCompanies 1).2.filter
                   (fun c => c.status && !(c.id == 1))).length)
       ∧ (∃ u ∈ (deleteUser demoUsers (some 1)).2, u.id = 1 ∧ u.status = false)
       ∧ (∀ limite desde : Nat,
           (∀ x ∈ (getUsers (deleteUser demoUsers (some 1)).2 limite desde).items,
               x.id ≠ 1)
           ∧ (getUsers (deleteUser demoUsers (some 1)).2 limite desde).total
               = ((deleteUser demoUsers (some 1)).2.filter
                   (fun x => x.status && !(x.id == 1))).length)) :=
  ⟨by decide, by decide,
   logical_delete_keeps_record_inactive_and_listings_exclude_it
     demoCompanies demoUsers 1 1 (by decide) (by decide)⟩

/-- C7: for every update whose target id matches no record
(PUT /user/:uid via `updateUser`, PUT /company/:id via `updateCompany`),
`findByIdAndUpdate` matches nothing, the response is 404, and the store is
returned unchanged. -/
theorem update_nonexistent_id_404_store_unchanged
    (su : List UserRec) (sc : List CompanyRec) (uid cid : Nat)
    (pu : UserRec → UserRec) (pc : CompanyRec → CompanyRec)
    (hu : ∀ u ∈ su, u.id ≠ uid) (hc : ∀ c ∈ sc, c.id ≠ cid) :
    updateUser su (some uid) pu = (404, su)
    ∧ CompanyV3.updateCompany sc cid pc = (404, sc) := by
  have hfu : su.find? (fun u => u.id == uid) = none := by
    rw [List.find?_eq_none]
    intro x hx
    simpa using hu x hx
  have hfc : sc.find? (fun c => c.id == cid) = none := by
    rw [List.find?_eq_none]
    intro x hx
    simpa using hc x hx
  constructor
  · unfold updateUser findByIdAndUpdateUser
    simp [hfu]
  · unfold CompanyV3.updateCompany findByIdAndUpdateCompany
    simp [hfc]

/-- Witness for C7: id 99 matches nothing in the demo stores; both updates
return 404 and leave the stores untouched. -/
theorem update_nonexistent_witness :
    (∀ u ∈ demoUsers, u.id ≠ 99) ∧ (∀ c ∈ demoCompanies, c.id ≠ 99)
    ∧ updateUser demoUsers (some 99) id = (404, demoUsers)
    ∧ CompanyV3.updateCompany demoCompanies 99 id = (404, demoCompanies) :=
  ⟨by decide, by decide,
   update_nonexistent_id_404_store_unchanged demoUsers demoCompanies 99 99 id id
     (by decide) (by decide)⟩

/-- C8: each of `emailExists`, `usernameExists`, `userExists`,
`companyExists` performs exactly one lookup and raises iff its named
condition is violated: the uniqueness predicates (`emailExists`,
`usernameExists`) succeed exactly when no matching record exists, while the
referential predicates (`userExists`, `companyExists`) succeed exactly when
a matching record exists; in the non-throwing case nothing but the single
read occurred. -/
theorem existence_predicates_one_lookup_raise_iff_condition_violated
    (su : List UserRec) (sc : List CompanyRec)
    (email username : String) (uid cid : Nat) :
    ((emailExists su email).1.length = 1
      ∧ ((emailExists su email).2 = Except.ok () ↔ ∀ u ∈ su, u.email ≠ email))
    ∧ ((usernameExists su username).1.length = 1
      ∧ ((usernameExists su username).2 = Except.ok ()
          ↔ ∀ u ∈ su, u.username ≠ username))
    ∧ ((userExists su uid).1.length = 1
      ∧ ((userExists su uid).2 = Except.ok () ↔ ∃ u ∈ su, u.id = uid))
    ∧ ((companyExists sc cid).1.length = 1
      ∧ ((companyExists sc cid).2 = Except.ok () ↔ ∃ c ∈ sc, c.id = cid)) := by
  refine ⟨⟨rfl, ?_⟩, ⟨rfl, ?_⟩, ⟨rfl, ?_⟩, ⟨rfl, ?_⟩⟩
  · unfold emailExists
    cases hf : su.find? (fun u => u.email == email) with
    | none =>
      simp only [hf]
      constructor
      · intro _ u hu he
        have h0 := List.find?_eq_none.mp hf u hu
        simp [he] at h0
      · intro _
        trivial
    | some u =>
      simp only [hf]
      constructor
      · intro h0
        simp at h0
      · intro hall
        exfalso
        have hu := List.mem_of_find?_eq_some hf
        have he := List.find?_some hf
        exact hall u hu (by simpa using he)
  · unfold usernameExists
    cases hf : su.find? (fun u => u.username == username) with
    | none =>
      simp only [hf]
      constructor
      · intro _ u hu he
        have h0 := List.find?_eq_none.mp hf u hu
        simp [he] at h0
      · intro _
        trivial
    | some u =>
      simp only [hf]
      constructor
      · intro h0
        simp at h0
      · intro hall
        exfalso
        have hu := List.mem_of_find?_eq_some hf
        have he := List.find?_some hf
        exact hall u hu (by simpa using he)
  · unfold userExists
    cases hf : su.find? (fun u => u.id == uid) with
    | none =>
      simp only [hf]
      constructor
      · intro h0
        simp at h0
      · rintro ⟨u, hu, hi⟩
        have h0 := List.find?_eq_none.mp hf u hu
        simp [hi] at h0
    | some u =>
      simp only [hf]
      constructor
      · intro _
        refine ⟨u, List.mem_of_find?_eq_some hf, ?_⟩
        have he := List.find?_some hf
        simpa using he
      · intro _
        trivial
  · unfold companyExists
    cases hf : sc.find? (fun c => c.id == cid) with
    | none =>
      simp only [hf]
      constructor
      · intro h0
        simp at h0
      · rintro ⟨c, hcm, hi⟩
        have h0 := List.find?_eq_none.mp hf c hcm
        simp [hi] at h0
    | some c =>
      simp only [hf]
      constructor
      · intro _
        refine ⟨c, List.mem_of_find?_eq_some hf, ?_⟩
        have he := List.find?_some hf
        simpa using he
      · intro _
        trivial

/-- C4: every POST /auth/register request, whatever the body and store,
is rejected with 403 and no user record is created: `esAdmin`, the chain's
first middleware, fires on the absent `req.user` before any field validator
or the controller runs. -/
theorem register_route_always_403_no_user_created
    (store : List UserRec) (b : RegisterBody) (newId : Nat) :
    registerRoute store b newId = (403, store) ∧ esAdmin none = some 403 :=
  ⟨rfl, rfl⟩

/-- C3 (failing input): a registration whose email and username duplicate an
existing user's answers 403, not the 400 the claim states — `esAdmin`
rejects before the uniqueness validators ever run; the store is unchanged
either way. -/
theorem register_duplicate_email_403_not_400 :
    ((emailExists demoUsers dupRegisterBody.email).2
        = Except.error "The email u1@example.com is already registered")
    ∧ registerRoute demoUsers dupRegisterBody 2 = (403, demoUsers)
    ∧ registerRoute demoUsers dupRegisterBody 2 ≠ (400, demoUsers) := by
  refine ⟨rfl, rfl, by decide⟩

/-- C9 (failing behavior): the self-update route PUT /user contradicts the
claim on both sides.  Every valid non-ADMIN identity is stopped with 403 by
`hasRoles("ADMIN")` in `updateUserValidator`, although the spec's role
column says "any".  A valid ADMIN identity does get 200 — but the
controller reads the `:uid` parameter the route path does not have, so
`findByIdAndUpdate(undefined, data)` degenerates to
`findOneAndUpdate({}, data)` and patches the collection's first document:
at the concrete store below, the CLIENT record with id 1 is the one
renamed, not the authenticated identity's record (id 2), which is returned
unchanged. -/
theorem self_update_route_403_for_non_admin_and_updates_first_document
    (store : List UserRec) (ident : AuthedUser) (patch : UserRec → UserRec)
    (h : ident.role ≠ "ADMIN") :
    updateUserSelfRoute store (some ident) patch = (403, store)
    ∧ updateUserSelfRoute demoUsers2 (some ⟨2, "ADMIN"⟩) renameUser
        = (200, [renameUser demoClient, demoAdmin2])
    ∧ (renameUser demoClient).id = 1
    ∧ demoClient.role = "CLIENT" := by
  refine ⟨?_, by decide, by decide, by decide⟩
  unfold updateUserSelfRoute hasRoles
  simp [h]

/-- Witness for C9: the CLIENT identity with a valid partial body is
rejected with 403 at the demo store, where the ADMIN identity's request
patches the first (CLIENT) document instead of its own record. -/
theorem self_update_route_witness :
    ((AuthedUser.mk 1 "CLIENT").role ≠ "ADMIN")
    ∧ (updateUserSelfRoute demoUsers2 (some ⟨1, "CLIENT"⟩) renameUser
        = (403, demoUsers2)
      ∧ updateUserSelfRoute demoUsers2 (some ⟨2, "ADMIN"⟩) renameUser
          = (200, [renameUser demoClient, demoAdmin2])
      ∧ (renameUser demoClient).id = 1
      ∧ demoClient.role = "CLIENT") :=
  ⟨by decide,
   self_update_route_403_for_non_admin_and_updates_first_document
     demoUsers2 ⟨1, "CLIENT"⟩ renameUser (by decide)⟩

/-- A successful `save()` appends exactly the constructed document. -/
theorem saveCompany_ok_append (store : List CompanyRec) (c : CompanyRec)
    (s : List CompanyRec) (h : saveCompany store c = Except.ok s) :
    s = store ++ [c] := by
  unfold saveCompany at h
  split_ifs at h with h1 h2
  simp only [Except.ok.injEq] at h
  exact h.symm

/-- C5: on a 201 from company creation, the founding-year variant stores
`currentYear - yearsTrajectoryInput` in the created record (founding year
2005 in year 2023 stores 18), while the direct-value variant stores the
input verbatim. -/
theorem create_company_founding_year_vs_direct
    (currentYear : Int) (store : List CompanyRec) (adminId : Nat)
    (b : CompanyBody) (newId : Nat)
    (h2 : (CompanyV2.createCompany currentYear store adminId b newId).1 = 201)
    (h3 : (CompanyV3.createCompany store adminId b newId).1 = 201) :
    ((CompanyV2.createCompany currentYear store adminId b newId).2
        = store ++ [newCompany (currentYear - b.yearsTrajectory) b adminId newId]
      ∧ (newCompany (currentYear - b.yearsTrajectory) b adminId newId).yearsTrajectory
        = currentYear - b.yearsTrajectory)
    ∧ ((CompanyV3.createCompany store adminId b newId).2
        = store ++ [newCompany b.yearsTrajectory b adminId newId]
      ∧ (newCompany b.yearsTrajectory b adminId newId).yearsTrajectory
        = b.yearsTrajectory) := by
  refine ⟨⟨?_, rfl⟩, ⟨?_, rfl⟩⟩
  · unfold CompanyV2.createCompany at h2 ⊢
    cases hs : saveCompany store
        (newCompany (currentYear - b.yearsTrajectory) b adminId newId) with
    | error e =>
      rw [hs] at h2
      simp at h2
    | ok s =>
      simpa using saveCompany_ok_append _ _ _ hs
  · unfold CompanyV3.createCompany at h3 ⊢
    cases hs : saveCompany store
        (newCompany b.yearsTrajectory b adminId newId) with
    | error e =>
      rw [hs] at h3
      simp at h3
    | ok s =>
      simpa using saveCompany_ok_append _ _ _ hs

/-- Witness for C5: both creations succeed on the empty store in year 2023;
the founding-year variant stores 2023 − 2005 = 18, the direct variant 2005. -/
theorem create_company_trajectory_witness :
    (CompanyV2.createCompany 2023 [] 1 demoCompanyBody 1).1 = 201
    ∧ (CompanyV3.createCompany [] 1 demoCompanyBody 1).1 = 201
    ∧ (((CompanyV2.createCompany 2023 [] 1 demoCompanyBody 1).2
          = [] ++ [newCompany (2023 - demoCompanyBody.yearsTrajectory) demoCompanyBody 1 1]
        ∧ (newCompany (2023 - demoCompanyBody.yearsTrajectory) demoCompanyBody 1 1).yearsTrajectory
          = 2023 - demoCompanyBody.yearsTrajectory)
      ∧ ((CompanyV3.createCompany [] 1 demoCompanyBody 1).2
          = [] ++ [newCompany demoCompanyBody.yearsTrajectory demoCompanyBody 1 1]
        ∧ (newCompany demoCompanyBody.yearsTrajectory demoCompanyBody 1 1).yearsTrajectory
          = demoCompanyBody.yearsTrajectory)) :=
  ⟨by decide, by decide,
   create_company_founding_year_vs_direct 2023 [] 1 demoCompanyBody 1
     (by decide) (by decide)⟩

/-- C10: a `yearsTrajectory` body value above the current year passes
`createCompanyValidator` (whose only numeric demand is a non-negative
integer, `foundingYearValidator` being in no chain), the founding-year
controller computes a negative trajectory that violates the schema minimum
of 0, `save` throws, and the route answers 500 — not 400 — with no company
created. -/
theorem founding_year_in_future_passes_validator_then_500
    (currentYear : Int) (store : List CompanyRec) (adminId : Nat)
    (b : CompanyBody) (newId : Nat)
    (hname : b.name ≠ "") (hdesc : b.description ≠ "")
    (himp : b.levelImpact = "Bajo" ∨ b.levelImpact = "Medio" ∨ b.levelImpact = "Alto")
    (hys : 0 ≤ b.yearsTrajectory) (hcat : b.category ≠ "")
    (hgt : currentYear < b.yearsTrajectory) :
    createCompanyFieldErrors b = []
    ∧ "foundingYearValidator" ∉ createCompanyValidatorRules
    ∧ currentYear - b.yearsTrajectory < 0
    ∧ CompanyV2.createCompanyRoute currentYear store adminId b newId = (500, store) := by
  have herr : createCompanyFieldErrors b = [] := by
    unfold createCompanyFieldErrors
    simp [hname, hdesc, himp, hys, hcat]
  have hneg : ¬ (0 ≤ currentYear - b.yearsTrajectory) := by omega
  have hinv : validCompany (newCompany (currentYear - b.yearsTrajectory) b adminId newId)
      = false := by
    unfold validCompany newCompany
    simp [hneg]
  have hsave : saveCompany store (newCompany (currentYear - b.yearsTrajectory) b adminId newId)
      = Except.error "Company validation failed" := by
    unfold saveCompany
    simp [hinv]
  refine ⟨herr, by decide, by omega, ?_⟩
  unfold CompanyV2.createCompanyRoute
  rw [if_neg (by simp [herr])]
  unfold CompanyV2.createCompany
  rw [hsave]

/-- Witness for C10: founding year 3000 with otherwise valid fields, in year
2023, on the empty store. -/
theorem founding_year_in_future_witness :
    ({ demoCompanyBody with yearsTrajectory := 3000 : CompanyBody }.name ≠ ""
    ∧ (2023 : Int) < 3000)
    ∧ (createCompanyFieldErrors { demoCompanyBody with yearsTrajectory := 3000 } = []
    ∧ "foundingYearValidator" ∉ createCompanyValidatorRules
    ∧ (2023 : Int) - 3000 < 0
    ∧ CompanyV2.createCompanyRoute 2023 [] 1 { demoCompanyBody with yearsTrajectory := 3000 } 1
        = (500, [])) :=
  ⟨⟨by decide, by decide⟩,
   founding_year_in_future_passes_validator_then_500 2023 [] 1
     { demoCompanyBody with yearsTrajectory := 3000 } 1
     (by decide) (by decide) (by decide) (by decide) (by decide) (by decide)⟩

/-- C6 (failing input): `createDefaultAdmin` can never create the default
administrator — user-validators.js does not import `User` (nor `hash`), so
the try block's first statement throws a ReferenceError that its catch
swallows — hence on a store with no ADMIN the routine leaves the store
without any ADMIN, against the claim; only the no-op half of the claim
holds. -/
theorem createDefaultAdmin_never_creates_admin
    (store : List UserRec) (newId : Nat) :
    createDefaultAdmin store newId = store
    ∧ "User" ∉ userValidatorsImports
    ∧ "hash" ∉ userValidatorsImports
    ∧ (createDefaultAdmin ([] : List UserRec) 1).countP (fun u => u.role == "ADMIN") = 0 := by
  refine ⟨?_, by decide, by decide, by decide⟩
  unfold createDefaultAdmin
  rw [if_neg]
  intro hcon
  exact absurd hcon.1 (by decide)
